import Mathlib

/-!
Shallow embedding of the shapes-ts runtime structural-validation library.

Decoded JavaScript values (parsed JSON, plus the two absence sentinels and
the function values reachable through the Object.prototype chain) are
modeled by `JSValue`.  Shape descriptors are modeled by the closed
inductive `Shape`, one constructor per descriptor kind; the `typename`
and `optional` record fields the TypeScript builders store on each
descriptor are recovered by the functions `Shape.typename` and
`Shape.isOptional`, and every builder's `checkFn` closure is recovered by
the single recursive function `checkFn`, dispatched on the kind.
-/

namespace ShapesTS

/-- Model of a JavaScript number: a finite value, or one of the
non-finite tags (NaN, Infinity, -Infinity) that `Number.isFinite`
rejects. -/
inductive JSNum where
  | fin (val : Rat)
  | nan
  | inf
  | negInf

/-- Model of a JavaScript runtime value.  `str`, `num`, `bool`, `null`,
`arr` and `obj` cover everything `JSON.parse` can produce (an object is a
finite association list of string keys, in insertion order, keys
pairwise distinct in any value that actually comes from `JSON.parse`);
`undefined` is the distinct "key not present" sentinel; `fn` models the
function values sitting on `Object.prototype` (`toString`, `valueOf`,
...), which a property lookup on a plain object can reach through the
prototype chain.  (The `__proto__` accessor, whose lookup result is the
prototype object itself rather than a function, is also modeled by `fn`:
a property named `__proto__` cannot be declared in a TypeScript object
literal, so no property map built by this library ever reads it.) -/
inductive JSValue where
  | str (s : String)
  | num (n : JSNum)
  | bool (b : Bool)
  | null
  | undefined
  | arr (elems : List JSValue)
  | obj (fields : List (String × JSValue))
  | fn (name : String)

-- Primitive checkers (source: `isString` .. `isUndefined`).

/-- Source `isString`: `typeof input === "string"`. -/
def isString : JSValue → Bool
  | .str _ => true
  | _ => false

/-- Source `isNumber`: `Number.isFinite(input)` — true only on numbers
that are neither NaN nor infinite. -/
def isNumber : JSValue → Bool
  | .num (.fin _) => true
  | _ => false

/-- Source `isObject`: non-null, `typeof === "object"`, and not an
array.  Of the modeled values only a plain object qualifies (`typeof` of
a function is `"function"`). -/
def isObject : JSValue → Bool
  | .obj _ => true
  | _ => false

/-- Source `isArray`: `Array.isArray(input)`. -/
def isArray : JSValue → Bool
  | .arr _ => true
  | _ => false

/-- Source `isNull`: `input === null`. -/
def isNull : JSValue → Bool
  | .null => true
  | _ => false

/-- Source `isBoolean`: `typeof input === "boolean"`. -/
def isBoolean : JSValue → Bool
  | .bool _ => true
  | _ => false

/-- Source `isUndefined`: `input === undefined`. -/
def isUndefined : JSValue → Bool
  | .undefined => true
  | _ => false

/-- The closed set of descriptor kinds.  `object` carries the typename
the builder computed (`name ?? "Object"`) and the property map as an
association list in declaration order. -/
inductive Shape where
  | string
  | number
  | boolean
  | optional (inner : Shape)
  | nullable (inner : Shape)
  | array (member : Shape)
  | object (tn : String) (properties : List (String × Shape))

/-- The `typename` field each builder stores on its descriptor. -/
def Shape.typename : Shape → String
  | .string => "string"
  | .number => "number"
  | .boolean => "boolean"
  | .optional inner => inner.typename ++ " | undefined"
  | .nullable inner => inner.typename ++ " | null"
  | .array member => "Array<" ++ member.typename ++ ">"
  | .object tn _ => tn

/-- The `optional` field of a descriptor: the `optional` builder stores
`true`; every other builder leaves the field unset, which the object
check's `!properties[property].optional` test reads as false. -/
def Shape.isOptional : Shape → Bool
  | .optional _ => true
  | _ => false

/-- Property names the `in` operator finds on every plain object through
its `Object.prototype` prototype, beyond the object's own keys.  Both
the checked input objects and the property-map objects are plain objects
(object literals / `JSON.parse` results), so `in` on either also
answers true for these names. -/
def objectPrototypeKeys : List String :=
  ["constructor", "hasOwnProperty", "isPrototypeOf", "propertyIsEnumerable",
   "toLocaleString", "toString", "valueOf",
   "__defineGetter__", "__defineSetter__", "__lookupGetter__",
   "__lookupSetter__", "__proto__"]

/-- The JavaScript `in` operator on a plain object with own keys
`ownKeys`: an own key, or an inherited `Object.prototype` key. -/
def keyIn (k : String) (ownKeys : List String) : Bool :=
  ownKeys.contains k || objectPrototypeKeys.contains k

/-- The property read `input[property]` on a plain object: the own
property's value when present (first binding; keys are unique in any
real JS object), otherwise the `Object.prototype` member when the key
names one, otherwise `undefined`. -/
def getField (fields : List (String × JSValue)) (k : String) : JSValue :=
  match fields.find? (fun kv => kv.1 == k) with
  | some kv => kv.2
  | none => if objectPrototypeKeys.contains k then .fn k else .undefined

/-- First loop of the object check: every own enumerable key of the
input (`for (const inputProperty in input)` on a JSON-decoded object
enumerates exactly its own keys) must satisfy `inputProperty in
properties`, where `properties` is the object literal whose own keys are
the declared names. -/
def checkUnknown (fields : List (String × JSValue)) (propNames : List String) : Bool :=
  fields.all (fun kv => keyIn kv.1 propNames)

mutual

/-- The `checkFn` closure each builder installs on its descriptor,
dispatched on the descriptor kind:
* `string`/`number`/`boolean` call the matching primitive checker;
* `optional`: `isUndefined(input) || shape.checkFn(input)`;
* `nullable`: `isNull(input) || shape.checkFn(input)`;
* `array`: false unless the input is an array, then `every` element
  passes the member check;
* `object`: false unless the input is a plain object, then the
  unknown-key loop and the declared-property loop both pass. -/
def checkFn : Shape → JSValue → Bool
  | .string, input => isString input
  | .number, input => isNumber input
  | .boolean, input => isBoolean input
  | .optional shape, input => isUndefined input || checkFn shape input
  | .nullable shape, input => isNull input || checkFn shape input
  | .array shape, .arr elems => checkElems shape elems
  | .array _, _ => false
  | .object _ properties, .obj fields =>
      checkUnknown fields (properties.map Prod.fst) &&
        checkProperties properties fields
  | .object _ _, _ => false

/-- `input.every((entry) => ...)` of the array check: every element
passes the member shape's check. -/
def checkElems : Shape → List JSValue → Bool
  | _, [] => true
  | shape, entry :: rest => checkFn shape entry && checkElems shape rest

/-- Second loop of the object check, over the declared properties in
declaration order: read `field = input[property]`; fail when the key is
absent (`!(property in input)`) and the property is not optional; fail
when the property's check rejects `field`; otherwise continue. -/
def checkProperties : List (String × Shape) → List (String × JSValue) → Bool
  | [], _ => true
  | (name, shape) :: rest, fields =>
      (keyIn name (fields.map Prod.fst) || shape.isOptional) &&
        checkFn shape (getField fields name) &&
        checkProperties rest fields

end

/-- The overloaded `object` builder.  The TypeScript implementation takes
`nameOrProps : string | T` and `maybeProperties?: T`; when the first
argument is a string it requires the property map as second argument and
throws `new Error("Bad arguments somehow")` otherwise (modeled by
`Except.error`); when the first argument is the property map, the second
argument is ignored and the typename defaults to `"Object"`. -/
def object (nameOrProps : String ⊕ List (String × Shape))
    (maybeProperties : Option (List (String × Shape))) : Except String Shape :=
  match nameOrProps with
  | .inl nm =>
      match maybeProperties with
      | some properties => .ok (.object nm properties)
      | none => .error "Bad arguments somehow"
  | .inr properties => .ok (.object "Object" properties)

/-- One `console.warn` call of the source, one constructor per call
site, carrying the data the message template interpolates (the
diagnostic text itself is advisory and never examined). -/
inductive Diag where
  | notAnArray (tn : String)
  | badElement (tn : String) (entry : JSValue) (expected : String)
  | notAnObject (tn : String)
  | unknownProperty (tn : String) (property : String)
  | missingProperty (tn : String) (property : String) (expected : String)
  | badProperty (tn : String) (property : String) (field : JSValue) (expected : String)

/-- Unknown-key loop instrumented with its diagnostic: stops at the
first input key that is not `in` the property map. -/
def checkUnknownD (tn : String) (fields : List (String × JSValue))
    (propNames : List String) : Bool × List Diag :=
  match fields with
  | [] => (true, [])
  | kv :: rest =>
      if keyIn kv.1 propNames then checkUnknownD tn rest propNames
      else (false, [.unknownProperty tn kv.1])

mutual

/-- The check functions instrumented with the stream of `console.warn`
diagnostics they emit, in emission order, transcribed from the same
source with the same short-circuiting. -/
def checkFnD : Shape → JSValue → Bool × List Diag
  | .string, input => (isString input, [])
  | .number, input => (isNumber input, [])
  | .boolean, input => (isBoolean input, [])
  | .optional shape, input =>
      if isUndefined input then (true, []) else checkFnD shape input
  | .nullable shape, input =>
      if isNull input then (true, []) else checkFnD shape input
  | .array shape, .arr elems =>
      checkElemsD (Shape.typename (.array shape)) shape elems
  | .array shape, _ => (false, [.notAnArray (Shape.typename (.array shape))])
  | .object tn properties, .obj fields =>
      match checkUnknownD tn fields (properties.map Prod.fst) with
      | (true, _) => checkPropertiesD tn properties fields
      | r => r
  | .object tn _, _ => (false, [.notAnObject tn])

/-- Instrumented `every` of the array check: the member check's own
diagnostics come first, then one `badElement` line for the first
failing element. -/
def checkElemsD (tn : String) : Shape → List JSValue → Bool × List Diag
  | _, [] => (true, [])
  | shape, entry :: rest =>
      match checkFnD shape entry with
      | (true, ds) =>
          match checkElemsD tn shape rest with
          | (b, ds2) => (b, ds ++ ds2)
      | (false, ds) => (false, ds ++ [.badElement tn entry shape.typename])

/-- Instrumented declared-property loop: a `missingProperty` line for an
absent non-optional property, else the property check's own diagnostics
followed by a `badProperty` line when it rejects. -/
def checkPropertiesD (tn : String) :
    List (String × Shape) → List (String × JSValue) → Bool × List Diag
  | [], _ => (true, [])
  | (name, shape) :: rest, fields =>
      if !(keyIn name (fields.map Prod.fst)) && !shape.isOptional then
        (false, [.missingProperty tn name shape.typename])
      else
        match checkFnD shape (getField fields name) with
        | (true, ds) =>
            match checkPropertiesD tn rest fields with
            | (b, ds2) => (b, ds ++ ds2)
        | (false, ds) =>
            (false, ds ++ [.badProperty tn name (getField fields name) shape.typename])

end

-- Helper lemmas.

/-- The element loop is `List.all` of the member check. -/
theorem checkElems_eq_all (shape : Shape) (elems : List JSValue) :
    checkElems shape elems = elems.all (fun e => checkFn shape e) := by
  induction elems with
  | nil => simp [checkElems]
  | cons e rest ih => simp [checkElems, ih]

/-- The declared-property loop is `List.all` of the per-property test. -/
theorem checkProperties_eq_all (properties : List (String × Shape))
    (fields : List (String × JSValue)) :
    checkProperties properties fields =
      properties.all (fun p =>
        (keyIn p.1 (fields.map Prod.fst) || p.2.isOptional) &&
          checkFn p.2 (getField fields p.1)) := by
  induction properties with
  | nil => simp [checkProperties]
  | cons p rest ih =>
      match p with
      | (name, shape) => simp [checkProperties, ih, Bool.and_assoc]

/-- No shape built by the library accepts a function value (a value of
`typeof === "function"`, as read off `Object.prototype`). -/
theorem checkFn_fn_false : ∀ (s : Shape) (k : String), checkFn s (.fn k) = false
  | .string, _ => by simp [checkFn, isString]
  | .number, _ => by simp [checkFn, isNumber]
  | .boolean, _ => by simp [checkFn, isBoolean]
  | .optional inner, k => by simp [checkFn, isUndefined, checkFn_fn_false inner k]
  | .nullable inner, k => by simp [checkFn, isNull, checkFn_fn_false inner k]
  | .array _, _ => by simp [checkFn]
  | .object _ _, _ => by simp [checkFn]

/-- The instrumented unknown-key loop decides the same boolean as the
plain one. -/
theorem checkUnknownD_fst (tn : String) (fields : List (String × JSValue))
    (propNames : List String) :
    (checkUnknownD tn fields propNames).1 = checkUnknown fields propNames := by
  induction fields with
  | nil => simp [checkUnknownD, checkUnknown]
  | cons kv rest ih =>
      cases hk : keyIn kv.1 propNames <;>
        simp [checkUnknownD, checkUnknown, hk, ih, checkUnknown] at ih ⊢

mutual

/-- The boolean verdict of the diagnostics-instrumented check equals the
plain check's verdict: the emitted diagnostics never influence the
result. -/
theorem checkFnD_fst : ∀ (s : Shape) (v : JSValue), (checkFnD s v).1 = checkFn s v
  | .string, v => by simp [checkFnD, checkFn]
  | .number, v => by simp [checkFnD, checkFn]
  | .boolean, v => by simp [checkFnD, checkFn]
  | .optional shape, v => by
      have h := checkFnD_fst shape v
      cases hu : isUndefined v <;> simp [checkFnD, checkFn, hu, h]
  | .nullable shape, v => by
      have h := checkFnD_fst shape v
      cases hn : isNull v <;> simp [checkFnD, checkFn, hn, h]
  | .array shape, .arr elems => by
      have h := checkElemsD_fst (Shape.typename (.array shape)) shape elems
      simp [checkFnD, checkFn, h]
  | .array shape, .str s => by simp [checkFnD, checkFn]
  | .array shape, .num n => by simp [checkFnD, checkFn]
  | .array shape, .bool b => by simp [checkFnD, checkFn]
  | .array shape, .null => by simp [checkFnD, checkFn]
  | .array shape, .undefined => by simp [checkFnD, checkFn]
  | .array shape, .obj fields => by simp [checkFnD, checkFn]
  | .array shape, .fn nm => by simp [checkFnD, checkFn]
  | .object tn properties, .obj fields => by
      have hu := checkUnknownD_fst tn fields (properties.map Prod.fst)
      have hp := checkPropertiesD_fst tn properties fields
      rcases hud : checkUnknownD tn fields (properties.map Prod.fst) with ⟨b, ds⟩
      rw [hud] at hu
      cases b <;> simp [checkFnD, checkFn, hud, ← hu, hp]
  | .object tn properties, .str s => by simp [checkFnD, checkFn]
  | .object tn properties, .num n => by simp [checkFnD, checkFn]
  | .object tn properties, .bool b => by simp [checkFnD, checkFn]
  | .object tn properties, .null => by simp [checkFnD, checkFn]
  | .object tn properties, .undefined => by simp [checkFnD, checkFn]
  | .object tn properties, .arr elems => by simp [checkFnD, checkFn]
  | .object tn properties, .fn nm => by simp [checkFnD, checkFn]

/-- Verdict agreement for the instrumented element loop. -/
theorem checkElemsD_fst : ∀ (tn : String) (shape : Shape) (elems : List JSValue),
    (checkElemsD tn shape elems).1 = checkElems shape elems
  | _, _, [] => by simp [checkElemsD, checkElems]
  | tn, shape, entry :: rest => by
      have h1 := checkFnD_fst shape entry
      have h2 := checkElemsD_fst tn shape rest
      rcases hfd : checkFnD shape entry with ⟨b, ds⟩
      rcases hed : checkElemsD tn shape rest with ⟨b2, ds2⟩
      rw [hfd] at h1
      rw [hed] at h2
      cases b <;> simp [checkElemsD, checkElems, hfd, hed, ← h1, ← h2]

/-- Verdict agreement for the instrumented declared-property loop. -/
theorem checkPropertiesD_fst :
    ∀ (tn : String) (properties : List (String × Shape))
      (fields : List (String × JSValue)),
    (checkPropertiesD tn properties fields).1 = checkProperties properties fields
  | _, [], _ => by simp [checkPropertiesD, checkProperties]
  | tn, (name, shape) :: rest, fields => by
      have h1 := checkFnD_fst shape (getField fields name)
      have h2 := checkPropertiesD_fst tn rest fields
      rcases hfd : checkFnD shape (getField fields name) with ⟨b, ds⟩
      rcases hpd : checkPropertiesD tn rest fields with ⟨b2, ds2⟩
      rw [hfd] at h1
      rw [hpd] at h2
      cases hk : keyIn name (fields.map Prod.fst) <;>
        cases ho : shape.isOptional <;>
        cases b <;>
        simp [checkPropertiesD, checkProperties, hk, ho, hfd, hpd, ← h1, ← h2]

end

-- Claim theorems.

/-- C3: `optional(S)` accepts the undefined sentinel and agrees with `S`
on the null sentinel; `nullable(S)` accepts the null sentinel and agrees
with `S` on the undefined sentinel. -/
theorem C3_optional_nullable_sentinels (s : Shape) :
    checkFn (.optional s) .undefined = true ∧
    checkFn (.optional s) .null = checkFn s .null ∧
    checkFn (.nullable s) .null = true ∧
    checkFn (.nullable s) .undefined = checkFn s .undefined := by
  refine ⟨by simp [checkFn, isUndefined], by simp [checkFn, isUndefined],
    by simp [checkFn, isNull], by simp [checkFn, isNull]⟩

/-- C4: `array(S).check(xs)` is true iff `xs` is an array all of whose
elements satisfy `S.check`; the empty array always passes and any
non-array input always fails. -/
theorem C4_array_homomorphism :
    (∀ (member : Shape) (v : JSValue),
        checkFn (.array member) v = true ↔
          ∃ elems, v = .arr elems ∧ elems.all (fun e => checkFn member e) = true) ∧
    (∀ member : Shape, checkFn (.array member) (.arr []) = true) ∧
    (∀ (member : Shape) (v : JSValue), isArray v = false →
        checkFn (.array member) v = false) := by
  refine ⟨fun member v => ?_, fun member => by simp [checkFn, checkElems],
    fun member v h => ?_⟩
  · cases v <;> simp [checkFn, checkElems_eq_all]
  · cases v <;> simp_all [checkFn, isArray]

/-- C4 witness: `array(string())` rejects the concrete non-array `null`. -/
theorem C4_array_homomorphism_witness :
    isArray JSValue.null = false ∧ checkFn (.array .string) .null = false :=
  ⟨by simp [isArray], C4_array_homomorphism.2.2 .string .null (by simp [isArray])⟩

/-- C5: each primitive descriptor accepts exactly the values of its own
runtime kind, `number()` counting only finite numbers: NaN and the
infinities fail, `42` passes, and `string()` rejects `42`. -/
theorem C5_primitive_exactness :
    (∀ v, checkFn .string v = true ↔ ∃ s, v = .str s) ∧
    (∀ v, checkFn .number v = true ↔ ∃ q, v = .num (.fin q)) ∧
    (∀ v, checkFn .boolean v = true ↔ ∃ b, v = .bool b) ∧
    checkFn .number (.num .nan) = false ∧
    checkFn .number (.num .inf) = false ∧
    checkFn .number (.num .negInf) = false ∧
    checkFn .number (.num (.fin 42)) = true ∧
    checkFn .string (.num (.fin 42)) = false := by
  refine ⟨fun v => ?_, fun v => ?_, fun v => ?_,
    by simp [checkFn, isNumber], by simp [checkFn, isNumber],
    by simp [checkFn, isNumber], by simp [checkFn, isNumber],
    by simp [checkFn, isString]⟩
  · cases v <;> simp [checkFn, isString]
  · cases v with
    | num n => cases n <;> simp [checkFn, isNumber]
    | _ => simp [checkFn, isNumber]
  · cases v <;> simp [checkFn, isBoolean]

/-- C6: the `optional` field is true exactly on descriptors built by the
optional modifier, and no combinator propagates it from an inner
descriptor. -/
theorem C6_isOptional_only_from_optional :
    (∀ s : Shape, Shape.isOptional s = true ↔ ∃ inner, s = .optional inner) ∧
    Shape.isOptional .string = false ∧
    Shape.isOptional .number = false ∧
    Shape.isOptional .boolean = false ∧
    (∀ s : Shape, Shape.isOptional (.optional s) = true) ∧
    (∀ s : Shape, Shape.isOptional (.nullable s) = false) ∧
    (∀ s : Shape, Shape.isOptional (.array s) = false) ∧
    (∀ (tn : String) (properties : List (String × Shape)),
        Shape.isOptional (.object tn properties) = false) ∧
    (∀ s : Shape, Shape.isOptional (.nullable (.optional s)) = false) ∧
    (∀ s : Shape, Shape.isOptional (.array (.optional s)) = false) := by
  refine ⟨fun s => ?_, rfl, rfl, rfl, fun s => rfl, fun s => rfl, fun s => rfl,
    fun tn properties => rfl, fun s => rfl, fun s => rfl⟩
  cases s <;> simp [Shape.isOptional]

/-- C7: the only construction error is the named object form without a
property map (the thrown `Error("Bad arguments somehow")`); every other
builder invocation succeeds, and every check is a total boolean. -/
theorem C7_construction_errors :
    (∀ (nameOrProps : String ⊕ List (String × Shape))
       (maybeProperties : Option (List (String × Shape))),
        (∃ e, object nameOrProps maybeProperties = .error e) ↔
          (∃ nm, nameOrProps = Sum.inl nm) ∧ maybeProperties = none) ∧
    (∀ nm : String, object (Sum.inl nm) none = .error "Bad arguments somehow") ∧
    (∀ (s : Shape) (v : JSValue), checkFn s v = true ∨ checkFn s v = false) := by
  refine ⟨fun nameOrProps maybeProperties => ?_, fun nm => rfl, fun s v => ?_⟩
  · cases nameOrProps <;> cases maybeProperties <;> simp [object]
  · cases h : checkFn s v
    · exact Or.inr rfl
    · exact Or.inl rfl

/-- C9: the verdict is a deterministic function of descriptor and value,
and the diagnostics the instrumented check emits never influence it. -/
theorem C9_check_deterministic :
    (∀ (s : Shape) (v : JSValue), (checkFnD s v).1 = checkFn s v) ∧
    (∀ (s : Shape) (v : JSValue) (b₁ b₂ : Bool),
        checkFn s v = b₁ → checkFn s v = b₂ → b₁ = b₂) :=
  ⟨checkFnD_fst, fun _ _ _ _ h₁ h₂ => h₁.symm.trans h₂⟩

/-- C9 witness: both parts at the concrete descriptor `string()` on the
concrete input `"x"`. -/
theorem C9_check_deterministic_witness :
    (checkFnD Shape.string (.str "x")).1 = checkFn Shape.string (.str "x") ∧
    (true : Bool) = true :=
  ⟨C9_check_deterministic.1 Shape.string (.str "x"),
   C9_check_deterministic.2 Shape.string (.str "x") true true
     (by simp [checkFn, isString]) (by simp [checkFn, isString])⟩

/-- C10: an undeclared input key whose name is an inherited
`Object.prototype` property (`toString`, `hasOwnProperty`,
`constructor`) slips through the closed-shape rule: the check returns
true whatever value sits under that key, which is therefore never
type-checked. -/
theorem C10_inherited_key_exception :
    (∀ v : JSValue,
        checkFn (.object "Object" [("a", .string)])
          (.obj [("a", .str "x"), ("toString", v)]) = true) ∧
    (∀ v : JSValue,
        checkFn (.object "Object" [("a", .string)])
          (.obj [("a", .str "x"), ("hasOwnProperty", v)]) = true) ∧
    (∀ v : JSValue,
        checkFn (.object "Object" [("a", .string)])
          (.obj [("a", .str "x"), ("constructor", v)]) = true) := by
  refine ⟨fun v => ?_, fun v => ?_, fun v => ?_⟩ <;>
    simp [checkFn, checkUnknown, checkProperties, keyIn, getField,
      objectPrototypeKeys, isString, Shape.isOptional]

/-- C1 counterexample: the input `{a: "x", toString: 1}` has the
undeclared key `toString`, yet `object({a: string()})` accepts it — the
unknown-key test uses the `in` operator, which also finds inherited
`Object.prototype` properties. -/
theorem C1_closed_shape_counterexample :
    checkFn (.object "Object" [("a", .string)])
      (.obj [("a", .str "x"), ("toString", .num (.fin 1))]) = true := by
  simp [checkFn, checkUnknown, checkProperties, keyIn, getField,
    objectPrototypeKeys, isString, Shape.isOptional]

/-- C1 (amended): an input key that is neither a declared property name
nor an inherited `Object.prototype` property name makes the object check
return false; in particular `object({a: string()})` rejects
`{a: "x", b: 1}`. -/
theorem C1_closed_shape_amended :
    (∀ (tn : String) (properties : List (String × Shape))
       (fields : List (String × JSValue)) (kv : String × JSValue),
        kv ∈ fields → kv.1 ∉ properties.map Prod.fst →
        kv.1 ∉ objectPrototypeKeys →
        checkFn (.object tn properties) (.obj fields) = false) ∧
    checkFn (.object "Object" [("a", .string)])
      (.obj [("a", .str "x"), ("b", .num (.fin 1))]) = false := by
  constructor
  · intro tn properties fields kv hmem hown hproto
    have hcu : checkUnknown fields (properties.map Prod.fst) = false := by
      simp only [checkUnknown, List.all_eq_false]
      refine ⟨kv, hmem, ?_⟩
      simp [keyIn, hown, hproto]
    simp [checkFn, hcu]
  · simp [checkFn, checkUnknown, checkProperties, keyIn, getField,
      objectPrototypeKeys, isString, Shape.isOptional]

/-- C1 witness: the amended rule applied at the concrete unknown key
`b`. -/
theorem C1_closed_shape_amended_witness :
    ("b", JSValue.num (.fin 1)) ∈
      [("a", JSValue.str "x"), ("b", JSValue.num (.fin 1))] ∧
    checkFn (.object "Object" [("a", .string)])
      (.obj [("a", .str "x"), ("b", .num (.fin 1))]) = false :=
  ⟨by simp, C1_closed_shape_amended.1 "Object" [("a", .string)]
      [("a", .str "x"), ("b", .num (.fin 1))] ("b", .num (.fin 1))
      (by simp) (by decide) (by decide)⟩

/-- C2: a declared non-optional property absent from the input fails the
object check; an absent optional property does not fail it by absence
alone (`{a: "x"}` passes `object({a: string(), b: optional(number())})`),
while a present optional property of the wrong type still fails
(`{a: "x", b: "y"}`). -/
theorem C2_missing_and_optional_properties :
    (∀ (tn : String) (properties : List (String × Shape))
       (fields : List (String × JSValue)) (p : String × Shape),
        p ∈ properties → (∀ kv ∈ fields, kv.1 ≠ p.1) →
        p.2.isOptional = false →
        checkFn (.object tn properties) (.obj fields) = false) ∧
    checkFn (.object "Object" [("a", .string), ("b", .optional .number)])
      (.obj [("a", .str "x")]) = true ∧
    checkFn (.object "Object" [("a", .string), ("b", .optional .number)])
      (.obj [("a", .str "x"), ("b", .str "y")]) = false := by
  refine ⟨?_, ?_, ?_⟩
  · intro tn properties fields p hmem habsent hopt
    have hfind : fields.find? (fun kv => kv.1 == p.1) = none := by
      rw [List.find?_eq_none]
      intro x hx
      simp [habsent x hx]
    have hnotmem : p.1 ∉ fields.map Prod.fst := by
      intro hmem2
      rcases List.mem_map.mp hmem2 with ⟨kv, hkv, hfst⟩
      exact absurd hfst (habsent kv hkv)
    have hcp : checkProperties properties fields = false := by
      rw [checkProperties_eq_all]
      simp only [List.all_eq_false]
      refine ⟨p, hmem, ?_⟩
      by_cases hpk : p.1 ∈ objectPrototypeKeys
      · have hgf : getField fields p.1 = .fn p.1 := by
          simp [getField, hfind, hpk]
        simp [hgf, checkFn_fn_false p.2 p.1]
      · simp [keyIn, hnotmem, hpk, hopt]
    simp [checkFn, hcp]
  · simp [checkFn, checkUnknown, checkProperties, keyIn, getField,
      objectPrototypeKeys, isString, isNumber, isUndefined, Shape.isOptional]
  · simp [checkFn, checkUnknown, checkProperties, keyIn, getField,
      objectPrototypeKeys, isString, isNumber, isUndefined, Shape.isOptional]

/-- C2 witness: the missing-property rule applied at the concrete
property `a` absent from the empty object. -/
theorem C2_missing_and_optional_properties_witness :
    Shape.isOptional Shape.string = false ∧
    checkFn (.object "Object" [("a", .string)]) (.obj []) = false :=
  ⟨rfl, C2_missing_and_optional_properties.1 "Object" [("a", .string)] []
      ("a", .string) (by simp) (by simp) rfl⟩

/-- C8: the User descriptor of the example program accepts the example
payload, and rejects it with `hasSignedIn` removed, with `age` replaced
by the string `"29"`, or with an extra key `extra` added. -/
theorem C8_user_end_to_end :
    object (Sum.inl "User")
        (some [("name", .string), ("age", .number), ("hasSignedIn", .boolean),
               ("permissions", .optional (.array .string))]) =
      .ok (.object "User"
        [("name", .string), ("age", .number), ("hasSignedIn", .boolean),
         ("permissions", .optional (.array .string))]) ∧
    checkFn (.object "User"
        [("name", .string), ("age", .number), ("hasSignedIn", .boolean),
         ("permissions", .optional (.array .string))])
      (.obj [("name", .str "jakob"), ("age", .num (.fin 29)),
             ("hasSignedIn", .bool true),
             ("permissions", .arr [.str "developer", .str "admin"])]) = true ∧
    checkFn (.object "User"
        [("name", .string), ("age", .number), ("hasSignedIn", .boolean),
         ("permissions", .optional (.array .string))])
      (.obj [("name", .str "jakob"), ("age", .num (.fin 29)),
             ("permissions", .arr [.str "developer", .str "admin"])]) = false ∧
    checkFn (.object "User"
        [("name", .string), ("age", .number), ("hasSignedIn", .boolean),
         ("permissions", .optional (.array .string))])
      (.obj [("name", .str "jakob"), ("age", .str "29"),
             ("hasSignedIn", .bool true),
             ("permissions", .arr [.str "developer", .str "admin"])]) = false ∧
    checkFn (.object "User"
        [("name", .string), ("age", .number), ("hasSignedIn", .boolean),
         ("permissions", .optional (.array .string))])
      (.obj [("name", .str "jakob"), ("age", .num (.fin 29)),
             ("hasSignedIn", .bool true),
             ("permissions", .arr [.str "developer", .str "admin"]),
             ("extra", .num (.fin 1))]) = false := by
  refine ⟨rfl, ?_, ?_, ?_, ?_⟩ <;>
    simp [checkFn, checkElems, checkProperties, checkUnknown, keyIn, getField,
      objectPrototypeKeys, isString, isNumber, isBoolean, isUndefined,
      Shape.isOptional]

end ShapesTS
